import Mathlib

/-!
Formal model of the Dynamic Interactive Privacy Policy Analyzer.

The definitions below are shallow embeddings of the repository's TypeScript
frontend components (quiz playback, styled-text rendering, policy viewer
ordering) together with spec-modelled versions of the backend pipeline stages
that are not present in the source tree (text-styling segmentation, quiz
synthesis validation, scoring and ranking).  JavaScript numbers are modelled
as `Nat`/`ℚ`, `Record<string, string>` maps as total functions with `""`
standing for an absent entry (the components only ever test entries for
truthiness), and React render output as explicit inductive values.
-/

/-! ### Quiz data model, from `src/backend/types/privacy.ts` -/

inductive QuestionType
  | multiple_choice
  | true_false
  | fill_blank
deriving DecidableEq

structure QuizOption where
  id : String
  text : String
  is_correct : Bool
deriving DecidableEq

structure QuizQuestion where
  id : String
  question_text : String
  question_type : QuestionType
  options : List QuizOption
  points : Nat
deriving DecidableEq

structure InteractiveQuiz where
  id : String
  title : String
  questions : List QuizQuestion
  passing_score : Nat
  estimated_time_minutes : Nat
deriving DecidableEq

/-- `QuizResult`, from `src/backend/types/privacy.ts`.  The answers record is a
total function; `""` denotes an absent entry. -/
structure QuizResult where
  quiz_id : String
  answers : String → String
  score : Nat
  total_points : Nat
  percentage : Nat
  passed : Bool
  time_taken_seconds : Nat

/-- Model of JavaScript `toLowerCase`, mapping each character. -/
def jsToLowerCase (s : String) : String :=
  String.mk (s.data.map Char.toLower)

/-- Model of `Math.round((num / den) * 100)` for a nonnegative quotient:
`Math.round x = ⌊x + 1/2⌋`, so the rounded percentage is
`⌊(100 num + den/2) / den⌋ = (200 num + den) / (2 den)` in natural division.
Meaningful only for `0 < den` (in JavaScript `den = 0` yields `NaN`). -/
def jsRound100 (num den : Nat) : Nat :=
  (200 * num + den) / (2 * den)

/-! ### `calculateScore` / `handleFinishQuiz`, from
`src/frontend/src/components/policy/InteractiveQuiz.tsx` lines 98-152 -/

/-- Points one question contributes in `calculateScore`.  Mirrors the body of
the `forEach` loop: an absent/empty answer scores nothing; `fill_blank`
compares case-insensitively against `options[0]?.text` (skipping when that
text is falsy); other question types look the selected option up by its
`text` and check `is_correct`. -/
def questionScore (answers : String → String) (q : QuizQuestion) : Nat :=
  let userAnswer := answers q.id
  if userAnswer = "" then 0
  else
    match q.question_type with
    | QuestionType.fill_blank =>
      match q.options.head? with
      | some opt =>
        let correctAnswer := jsToLowerCase opt.text
        if correctAnswer ≠ "" ∧ jsToLowerCase userAnswer = correctAnswer then
          q.points
        else 0
      | none => 0
    | _ =>
      match q.options.find? (fun opt => opt.text = userAnswer) with
      | some selectedOption => if selectedOption.is_correct then q.points else 0
      | none => 0

/-- `calculateScore`: returns `(totalScore, maxScore)`. -/
def calculateScore (quiz : InteractiveQuiz) (answers : String → String) :
    Nat × Nat :=
  (quiz.questions.foldl (fun acc q => acc + questionScore answers q) 0,
   quiz.questions.foldl (fun acc q => acc + q.points) 0)

/-- `handleFinishQuiz`: builds the `QuizResult`.  The source hard-codes the
passing threshold: `passed: percentage >= 70`. -/
def handleFinishQuiz (quiz : InteractiveQuiz) (answers : String → String)
    (elapsedSeconds : Nat) : QuizResult :=
  let scores := calculateScore quiz answers
  let percentage := jsRound100 scores.1 scores.2
  { quiz_id := quiz.id
    answers := answers
    score := scores.1
    total_points := scores.2
    percentage := percentage
    passed := decide (70 ≤ percentage)
    time_taken_seconds := elapsedSeconds }

/-! ### `completeQuiz`, from `src/unnamed/part_006` lines 57-112 (an earlier
variant of the quiz component; it compares against `quiz.passing_score`) -/

/-- Points one question contributes in the `part_006` scoring loop:
`fill_blank` compares (trimmed, lowercased) against the `is_correct` option's
text; other types look the selected option up by option `id`. -/
def questionScore006 (answers : String → String) (q : QuizQuestion) : Nat :=
  let userAnswer := answers q.id
  if userAnswer = "" then 0
  else
    match q.question_type with
    | QuestionType.fill_blank =>
      match q.options.find? (fun opt => opt.is_correct) with
      | some correctOption =>
        if (jsToLowerCase userAnswer).trim = (jsToLowerCase correctOption.text).trim then
          q.points
        else 0
      | none => 0
    | _ =>
      match q.options.find? (fun opt => opt.id = userAnswer) with
      | some selectedOption => if selectedOption.is_correct then q.points else 0
      | none => 0

/-- `completeQuiz` from `part_006`: `passed = percentage >= quiz.passing_score`. -/
def completeQuiz (quiz : InteractiveQuiz) (answers : String → String)
    (timeTaken : Nat) : QuizResult :=
  let totalScore := quiz.questions.foldl (fun acc q => acc + questionScore006 answers q) 0
  let totalPoints := quiz.questions.foldl (fun acc q => acc + q.points) 0
  let percentage := jsRound100 totalScore totalPoints
  { quiz_id := quiz.id
    answers := answers
    score := totalScore
    total_points := totalPoints
    percentage := percentage
    passed := decide (quiz.passing_score ≤ percentage)
    time_taken_seconds := timeTaken }

/-! ### Concrete quiz used to separate the two passing rules -/

def c1Question1 : QuizQuestion :=
  { id := "q1"
    question_text := "Is data sold?"
    question_type := QuestionType.multiple_choice
    options := [{ id := "o1", text := "Yes", is_correct := true },
                { id := "o2", text := "No", is_correct := false }]
    points := 1 }

def c1Question2 : QuizQuestion :=
  { id := "q2"
    question_text := "Can you opt out?"
    question_type := QuestionType.multiple_choice
    options := [{ id := "o3", text := "Yes", is_correct := true },
                { id := "o4", text := "No", is_correct := false }]
    points := 1 }

def c1Quiz : InteractiveQuiz :=
  { id := "quiz1"
    title := "Data practices"
    questions := [c1Question1, c1Question2]
    passing_score := 40
    estimated_time_minutes := 2 }

def c1Answers : String → String :=
  fun k => if k = "q1" then "Yes" else if k = "q2" then "No" else ""

/-- C1 counterexample: on `c1Quiz` (non-empty questions, positive total
points, `passing_score = 40`) the answers score 1 of 2 points, a rounded
percentage of 50.  The claim predicts `passed = true` since `50 ≥ 40`, but
`handleFinishQuiz` hard-codes the threshold 70 and reports `passed = false`. -/
theorem handleFinishQuiz_ignores_passing_score :
    c1Quiz.questions ≠ [] ∧
    0 < (calculateScore c1Quiz c1Answers).2 ∧
    ¬ (((handleFinishQuiz c1Quiz c1Answers 0).passed = true) ↔
        c1Quiz.passing_score ≤ (handleFinishQuiz c1Quiz c1Answers 0).percentage) := by
  refine ⟨by decide, by decide, ?_⟩
  decide

/-- C1 (amended): for any quiz with a non-empty question list and positive
total points, `handleFinishQuiz` sets `passed` exactly when the rounded
percentage is at least the hard-coded threshold 70, while the `part_006`
variant `completeQuiz` sets `passed` exactly when the rounded percentage is
at least the quiz's `passing_score`. -/
theorem quiz_passed_iff_percentage_ge_threshold (quiz : InteractiveQuiz)
    (answers : String → String) (t : Nat)
    (hq : quiz.questions ≠ []) (hp : 0 < (calculateScore quiz answers).2) :
    ((handleFinishQuiz quiz answers t).passed = true ↔
      70 ≤ (handleFinishQuiz quiz answers t).percentage) ∧
    ((completeQuiz quiz answers t).passed = true ↔
      quiz.passing_score ≤ (completeQuiz quiz answers t).percentage) := by
  constructor
  · simp [handleFinishQuiz]
  · simp [completeQuiz]

/-- C1 witness: the amended statement evaluated on `c1Quiz`. -/
theorem quiz_passed_iff_percentage_ge_threshold_witness :
    ((handleFinishQuiz c1Quiz c1Answers 0).passed = true ↔
      70 ≤ (handleFinishQuiz c1Quiz c1Answers 0).percentage) ∧
    ((completeQuiz c1Quiz c1Answers 0).passed = true ↔
      c1Quiz.passing_score ≤ (completeQuiz c1Quiz c1Answers 0).percentage) :=
  quiz_passed_iff_percentage_ge_threshold c1Quiz c1Answers 0 (by decide) (by decide)

/-! ### Styled-text data model and renderer, from
`src/frontend/src/types/policy.ts` (variant with styling, `part_008`) and
`src/frontend/src/components/policy/StyledTextRenderer.tsx` -/

structure TextSegment where
  id : String
  text : String
  sensitivity_score : ℚ
  highlight_color : String
  text_color : String
  font_weight : String
  text_emphasis : Nat
  requires_attention : Bool
  context_type : String
deriving DecidableEq

structure StyledContent where
  original_text : String
  segments : List TextSegment
  styling_applied : Bool
  high_sensitivity_count : Nat
  total_segments : Nat
deriving DecidableEq

/-- Render output of `StyledTextRenderer`: either the plain original text
(fallback branch, no segments rendered), or the ordered segment list. -/
inductive RenderedStyledText
  | fallback (text : String)
  | segmented (segments : List TextSegment)
deriving DecidableEq

/-- `StyledTextRenderer` (lines 13-20 and 124-133): falls back to
`original_text` when `!styling_applied || segments.length === 0`, otherwise
renders the segments in order. -/
def StyledTextRenderer (styledContent : StyledContent) : RenderedStyledText :=
  if styledContent.styling_applied = false ∨ styledContent.segments.length = 0 then
    RenderedStyledText.fallback styledContent.original_text
  else
    RenderedStyledText.segmented styledContent.segments

/-- The segments a render output displays. -/
def renderedSegments : RenderedStyledText → List TextSegment
  | RenderedStyledText.fallback _ => []
  | RenderedStyledText.segmented segments => segments

/-- The section texts a render output displays, in order. -/
def renderedTexts : RenderedStyledText → List String
  | RenderedStyledText.fallback text => [text]
  | RenderedStyledText.segmented segments => segments.map fun seg => seg.text

/-- C2: whenever `styling_applied` is false or `segments` is empty, the
renderer outputs exactly the `original_text` and renders no segments. -/
theorem styledTextRenderer_fallback (c : StyledContent)
    (h : c.styling_applied = false ∨ c.segments = []) :
    StyledTextRenderer c = RenderedStyledText.fallback c.original_text ∧
    renderedSegments (StyledTextRenderer c) = [] := by
  have hc : c.styling_applied = false ∨ c.segments.length = 0 := by
    rcases h with h | h
    · exact Or.inl h
    · exact Or.inr (by simp [h])
  have hr : StyledTextRenderer c = RenderedStyledText.fallback c.original_text := by
    unfold StyledTextRenderer
    exact if_pos hc
  exact ⟨hr, by rw [hr]; rfl⟩

def c2Content : StyledContent :=
  { original_text := "We collect your email."
    segments := []
    styling_applied := false
    high_sensitivity_count := 0
    total_segments := 0 }

/-- C2 witness: the fallback behaviour evaluated on a concrete value. -/
theorem styledTextRenderer_fallback_witness :
    StyledTextRenderer c2Content =
      RenderedStyledText.fallback c2Content.original_text ∧
    renderedSegments (StyledTextRenderer c2Content) = [] :=
  styledTextRenderer_fallback c2Content (Or.inl rfl)

/-! ### UI components and the policy viewer's ordering, from
`src/frontend/src/components/policy/PolicyViewer.tsx` line 70 and the
`UIComponent` shape used by `src/unnamed/part_003` -/

structure UIContent where
  title : String
  summary : String
  sensitivity_score : ℚ
  privacy_impact_score : ℚ
  importance_score : ℚ
  requires_quiz : Bool
  quiz : Option InteractiveQuiz
  styled_summary : Option StyledContent
deriving DecidableEq

structure UIComponent where
  id : String
  type : String
  priority : Nat
  content : UIContent
deriving DecidableEq

/-- Ascending-priority comparison, modelling the comparator
`(a, b) => a.priority - b.priority`. -/
def byPriority (a b : UIComponent) : Prop :=
  a.priority ≤ b.priority

instance : DecidableRel byPriority := fun a b => by
  unfold byPriority; infer_instance

instance : IsTotal UIComponent byPriority :=
  ⟨fun a b => Nat.le_total a.priority b.priority⟩

instance : IsTrans UIComponent byPriority :=
  ⟨fun _ _ _ => Nat.le_trans⟩

/-- `sortedComponents` (PolicyViewer line 70):
`result?.ui_components?.sort((a, b) => a.priority - b.priority) || []`. -/
def sortedComponents (ui_components : Option (List UIComponent)) :
    List UIComponent :=
  match ui_components with
  | none => []
  | some components => components.insertionSort byPriority

/-- C3: for every arriving `ui_components` list, the policy viewer displays
the components sorted by ascending `priority`, and the displayed list is a
permutation of the arriving list. -/
theorem sortedComponents_sorted_perm (components : List UIComponent) :
    List.Sorted byPriority (sortedComponents (some components)) ∧
    List.Perm (sortedComponents (some components)) components := by
  constructor
  · exact List.sorted_insertionSort byPriority components
  · exact List.perm_insertionSort byPriority components

/-! ### `DynamicPolicyComponent`, from `src/unnamed/part_003`
(lines 848-853: header quiz indicators; lines 987-1026: quiz section) -/

/-- What one policy card renders.  The header shows a quiz button when a
quiz is attached (`requires_quiz && quiz`) and a "Quiz Unavailable" badge
when a required quiz is missing (`requires_quiz && !quiz`); the expanded body
always renders the summary and, when `requires_quiz`, a quiz section that
degrades to an explicit "quiz generation failed" notice when `quiz` is
absent. -/
structure RenderedPolicyCard where
  displayTitle : String
  priorityLabel : Nat
  quizButton : Bool
  quizUnavailableBadge : Bool
  quizSection : Bool
  quizUnavailableNotice : Bool
  summaryRendered : Bool
deriving DecidableEq

def DynamicPolicyComponent (component : UIComponent) : RenderedPolicyCard :=
  { displayTitle :=
      if component.content.title = "" then
        "Section " ++ toString component.priority
      else component.content.title
    priorityLabel := component.priority
    quizButton := component.content.requires_quiz && component.content.quiz.isSome
    quizUnavailableBadge :=
      component.content.requires_quiz && !component.content.quiz.isSome
    quizSection := component.content.requires_quiz
    quizUnavailableNotice :=
      component.content.requires_quiz && !component.content.quiz.isSome
    summaryRendered := true }

/-- C7: a section component with `requires_quiz` true and no quiz renders an
explicit quiz-unavailable indication (header badge and body notice), does not
render a quiz button, and the section body is still rendered. -/
theorem dynamicPolicyComponent_quiz_unavailable (component : UIComponent)
    (hreq : component.content.requires_quiz = true)
    (hquiz : component.content.quiz = none) :
    (DynamicPolicyComponent component).quizUnavailableBadge = true ∧
    (DynamicPolicyComponent component).quizUnavailableNotice = true ∧
    (DynamicPolicyComponent component).quizSection = true ∧
    (DynamicPolicyComponent component).quizButton = false ∧
    (DynamicPolicyComponent component).summaryRendered = true := by
  simp [DynamicPolicyComponent, hreq, hquiz]

def c7Component : UIComponent :=
  { id := "comp1"
    type := "risk_warning"
    priority := 1
    content :=
      { title := "Data Sharing"
        summary := "Your data is shared with partners."
        sensitivity_score := 8
        privacy_impact_score := 8
        importance_score := 9
        requires_quiz := true
        quiz := none
        styled_summary := none } }

/-- C7 witness: the quiz-unavailable rendering on a concrete component. -/
theorem dynamicPolicyComponent_quiz_unavailable_witness :
    (DynamicPolicyComponent c7Component).quizUnavailableBadge = true ∧
    (DynamicPolicyComponent c7Component).quizUnavailableNotice = true ∧
    (DynamicPolicyComponent c7Component).quizSection = true ∧
    (DynamicPolicyComponent c7Component).quizButton = false ∧
    (DynamicPolicyComponent c7Component).summaryRendered = true :=
  dynamicPolicyComponent_quiz_unavailable c7Component rfl rfl

/-! ### C6: fill-in-the-blank scoring -/

theorem jsToLowerCase_ne_empty {s : String} (h : s ≠ "") :
    jsToLowerCase s ≠ "" := by
  intro hl
  apply h
  have hdata : s.data.map Char.toLower = ([] : List Char) :=
    congrArg String.data hl
  exact String.ext (List.map_eq_nil_iff.mp hdata)

/-- C6: for a `fill_blank` question carrying its canonical answer as the
sole option, a (non-empty) recorded answer earns the question's points
exactly when it equals the option's text case-insensitively. -/
theorem fillBlank_score_iff_case_insensitive_match (q : QuizQuestion)
    (opt : QuizOption) (answers : String → String)
    (htype : q.question_type = QuestionType.fill_blank)
    (hopts : q.options = [opt])
    (hans : answers q.id ≠ "") :
    questionScore answers q =
      if jsToLowerCase (answers q.id) = jsToLowerCase opt.text then q.points
      else 0 := by
  unfold questionScore
  rw [htype, hopts]
  simp only [List.head?, if_neg hans]
  by_cases heq : jsToLowerCase (answers q.id) = jsToLowerCase opt.text
  · have hne : jsToLowerCase opt.text ≠ "" := heq ▸ jsToLowerCase_ne_empty hans
    rw [if_pos heq, if_pos ⟨hne, heq⟩]
  · rw [if_neg heq, if_neg ?_]
    intro hcontra
    exact heq hcontra.2

def c6Option : QuizOption :=
  { id := "o6", text := "GDPR", is_correct := true }

def c6Question : QuizQuestion :=
  { id := "q6"
    question_text := "Which regulation grants deletion rights?"
    question_type := QuestionType.fill_blank
    options := [c6Option]
    points := 2 }

def c6Answers : String → String :=
  fun k => if k = "q6" then "gdpr" else ""

/-- C6 witness: a lowercase answer to an uppercase canonical option earns
the points. -/
theorem fillBlank_score_iff_case_insensitive_match_witness :
    questionScore c6Answers c6Question =
      if jsToLowerCase (c6Answers c6Question.id) = jsToLowerCase c6Option.text
      then c6Question.points else 0 :=
  fillBlank_score_iff_case_insensitive_match c6Question c6Option c6Answers
    rfl rfl (by decide)

/-! ### C5: quiz synthesis validation (spec-modelled) -/

/-- Modelled from the spec: the Quiz Synthesizer backend component is not
present under `src`; per §4.6 it "validates the returned question/option
structure satisfies the exactly-one-correct-option invariant (§3) before
accepting it", where §3 requires exactly one `is_correct=true` option per
multiple-choice/true-false question and the canonical answer as the sole
option of a fill-blank question. -/
def questionWellFormed (q : QuizQuestion) : Bool :=
  match q.question_type with
  | QuestionType.multiple_choice =>
    (q.options.filter fun o => o.is_correct).length == 1
  | QuestionType.true_false =>
    (q.options.filter fun o => o.is_correct).length == 1
  | QuestionType.fill_blank => q.options.length == 1

/-- Modelled from the spec: structural validation of a synthesized quiz. -/
def validateQuizStructure (quiz : InteractiveQuiz) : Bool :=
  quiz.questions.all questionWellFormed

/-- Modelled from the spec: a synthesized quiz is accepted into a section
only if it passes structural validation; otherwise the section's quiz is
absent. -/
def acceptQuiz (quiz : InteractiveQuiz) : Option InteractiveQuiz :=
  if validateQuizStructure quiz then some quiz else none

theorem find?_eq_head?_filter (p : α → Bool) (l : List α) :
    l.find? p = (l.filter p).head? := by
  induction l with
  | nil => rfl
  | cons a l ih =>
    cases hpa : p a with
    | false =>
      simp only [List.find?_cons, List.filter_cons, hpa]
      exact ih
    | true =>
      simp only [List.find?_cons, List.filter_cons, hpa, if_true]
      rfl

/-- C5: every multiple-choice or true-false question of an accepted quiz has
exactly one `is_correct=true` option, so looking the correct option up by
`is_correct` (as the results views do) is well-defined and unique. -/
theorem acceptQuiz_unique_correct_option (quiz accepted : InteractiveQuiz)
    (hacc : acceptQuiz quiz = some accepted)
    (q : QuizQuestion) (hq : q ∈ accepted.questions)
    (ht : q.question_type = QuestionType.multiple_choice ∨
      q.question_type = QuestionType.true_false) :
    ∃ opt, q.options.filter (fun o => o.is_correct) = [opt] ∧
      q.options.find? (fun o => o.is_correct) = some opt := by
  have hval : validateQuizStructure quiz = true ∧ accepted = quiz := by
    by_cases hv : validateQuizStructure quiz = true
    · refine ⟨hv, ?_⟩
      rw [acceptQuiz, if_pos hv] at hacc
      exact (Option.some.injEq _ _ ▸ hacc).symm
    · rw [acceptQuiz, if_neg hv] at hacc
      cases hacc
  obtain ⟨hv, rfl⟩ := hval
  have hwf : questionWellFormed q = true := List.all_eq_true.mp hv q hq
  have hlen : (q.options.filter fun o => o.is_correct).length = 1 := by
    rcases ht with ht | ht <;>
      · simp only [questionWellFormed, ht, Nat.beq_eq_true_eq] at hwf
        exact hwf
  obtain ⟨opt, hopt⟩ := List.length_eq_one.mp hlen
  refine ⟨opt, hopt, ?_⟩
  rw [find?_eq_head?_filter, hopt]
  rfl

def c5Question : QuizQuestion :=
  { id := "q5"
    question_text := "Is location tracked?"
    question_type := QuestionType.true_false
    options := [{ id := "t", text := "True", is_correct := true },
                { id := "f", text := "False", is_correct := false }]
    points := 1 }

def c5Quiz : InteractiveQuiz :=
  { id := "quiz5"
    title := "Tracking"
    questions := [c5Question]
    passing_score := 70
    estimated_time_minutes := 1 }

/-- C5 witness: the uniqueness statement evaluated on a concrete accepted
quiz. -/
theorem acceptQuiz_unique_correct_option_witness :
    ∃ opt, c5Question.options.filter (fun o => o.is_correct) = [opt] ∧
      c5Question.options.find? (fun o => o.is_correct) = some opt :=
  acceptQuiz_unique_correct_option c5Quiz c5Quiz (by decide) c5Question
    (by decide) (Or.inr rfl)

/-! ### C4: text-styling segmentation (spec-modelled) -/

/-- Sentence-terminating characters used as segment boundaries. -/
def isSentenceEnd (c : Char) : Bool :=
  c = '.' || c = '!' || c = '?'

/-- Splits a character list into sentence-level chunks, cutting after each
sentence-terminating character.  Every character lands in exactly one chunk. -/
def splitSegs : List Char → List (List Char)
  | [] => []
  | c :: rest =>
    match splitSegs rest with
    | [] => [[c]]
    | s :: ss =>
      if isSentenceEnd c then [c] :: s :: ss else (c :: s) :: ss

theorem flatten_splitSegs (l : List Char) : (splitSegs l).flatten = l := by
  induction l with
  | nil => rfl
  | cons c rest ih =>
    rw [splitSegs]
    cases hsp : splitSegs rest with
    | nil =>
      rw [hsp] at ih
      simp only [List.flatten_nil] at ih
      simp [← ih]
    | cons s ss =>
      rw [hsp] at ih
      by_cases hc : isSentenceEnd c
      · simp [hc, ih]
      · simp only [if_neg hc, List.flatten_cons] at ih ⊢
        rw [List.cons_append, ih]

theorem join_map_mk_aux (ls : List (List Char)) (acc : List Char) :
    (ls.map String.mk).foldl (fun r s => r ++ s) (String.mk acc) =
      String.mk (acc ++ ls.flatten) := by
  induction ls generalizing acc with
  | nil => simp
  | cons a ls ih =>
    simp only [List.map_cons, List.foldl_cons]
    have hmk : String.mk acc ++ String.mk a = String.mk (acc ++ a) := rfl
    rw [hmk, ih]
    simp

theorem join_map_mk (ls : List (List Char)) :
    String.join (ls.map String.mk) = String.mk ls.flatten := by
  have h := join_map_mk_aux ls []
  simpa [String.join] using h

/-- High-sensitivity threshold from which a segment demands attention. -/
def HIGH_SENSITIVITY_THRESHOLD : ℚ := 7

/-- Whether a key term occurs in a text (non-empty term, `splitOn` finds a
second part). -/
def containsTerm (text term : String) : Bool :=
  (term != "") && decide (2 ≤ (text.splitOn term).length)

/-- Modelled from the spec: §4.5 derives each segment's sensitivity from
keyword overlap with the section's extracted data types, starting from the
section's own sensitivity score, capped at the 0-10 scale. -/
def segmentSensitivity (base : ℚ) (keyTerms : List String) (text : String) : ℚ :=
  min 10 (base + (keyTerms.filter fun t => containsTerm text t).length)

/-- Modelled from the spec: §4.5 fixed threshold table deriving
`text_emphasis_level` (1-5) from a segment's sensitivity. -/
def emphasisLevelOf (sens : ℚ) : Nat :=
  if 8 ≤ sens then 5 else if 6 ≤ sens then 4 else if 4 ≤ sens then 3
  else if 2 ≤ sens then 2 else 1

/-- Modelled from the spec: fixed threshold table for `highlight_color`. -/
def highlightColorOf (sens : ℚ) : String :=
  if 8 ≤ sens then "red" else if 6 ≤ sens then "orange"
  else if 4 ≤ sens then "yellow" else "neutral"

/-- Modelled from the spec: fixed threshold table for `text_color`. -/
def textColorOf (sens : ℚ) : String :=
  if 8 ≤ sens then "red" else if 6 ≤ sens then "orange" else "default"

/-- Modelled from the spec: fixed threshold table for `font_weight`. -/
def fontWeightOf (sens : ℚ) : String :=
  if 6 ≤ sens then "bold" else if 4 ≤ sens then "medium" else "normal"

def mkTextSegment (sectionId : String) (base : ℚ) (keyTerms : List String)
    (idx : Nat) (chunk : List Char) : TextSegment :=
  let text := String.mk chunk
  let sens := segmentSensitivity base keyTerms text
  { id := sectionId ++ "-seg-" ++ toString idx
    text := text
    sensitivity_score := sens
    highlight_color := highlightColorOf sens
    text_color := textColorOf sens
    font_weight := fontWeightOf sens
    text_emphasis := emphasisLevelOf sens
    requires_attention := decide (HIGH_SENSITIVITY_THRESHOLD ≤ sens)
    context_type := "general" }

/-- Modelled from the spec: the `TextStylingSegmenter` backend component is
not present under `src`; per §4.5 it splits a section's summary text into
sentence-level segments annotated with sensitivity-derived emphasis, with
the invariant that segment texts concatenate in order to the input text, and
returns `styling_applied = false` with empty segments when it cannot
segment. -/
def TextStylingSegmenter (sectionId text : String) (sectionSensitivity : ℚ)
    (keyTerms : List String) : StyledContent :=
  let chunks := splitSegs text.data
  if chunks = [] then
    { original_text := text
      segments := []
      styling_applied := false
      high_sensitivity_count := 0
      total_segments := 0 }
  else
    let segments := chunks.enum.map fun p =>
      mkTextSegment sectionId sectionSensitivity keyTerms p.1 p.2
    { original_text := text
      segments := segments
      styling_applied := true
      high_sensitivity_count := (segments.filter fun s => s.requires_attention).length
      total_segments := segments.length }

theorem segment_texts_eq_chunks (sectionId : String) (base : ℚ)
    (keyTerms : List String) (chunks : List (List Char)) :
    ((chunks.enum.map fun p =>
        mkTextSegment sectionId base keyTerms p.1 p.2).map fun s => s.text) =
      chunks.map String.mk := by
  rw [List.map_map]
  have h : ((fun s => s.text) ∘ fun p : Nat × List Char =>
      mkTextSegment sectionId base keyTerms p.1 p.2) =
      (String.mk ∘ Prod.snd) := rfl
  rw [h, ← List.map_map, List.enum_map_snd]

/-- C4: whenever the text-styling segmenter reports `styling_applied`, the
`text` fields of its segments concatenate in order to exactly the
`original_text`, and the styled-text renderer's in-order traversal of the
rendered texts likewise recovers the original text. -/
theorem textStylingSegmenter_round_trip (sectionId text : String)
    (sens : ℚ) (keyTerms : List String)
    (happ : (TextStylingSegmenter sectionId text sens keyTerms).styling_applied = true) :
    String.join
        (((TextStylingSegmenter sectionId text sens keyTerms).segments).map
          fun s => s.text) =
      (TextStylingSegmenter sectionId text sens keyTerms).original_text ∧
    String.join
        (renderedTexts
          (StyledTextRenderer (TextStylingSegmenter sectionId text sens keyTerms))) =
      (TextStylingSegmenter sectionId text sens keyTerms).original_text := by
  by_cases hch : splitSegs text.data = []
  · rw [TextStylingSegmenter] at happ
    simp only [hch, if_pos] at happ
    cases happ
  · have hsc : TextStylingSegmenter sectionId text sens keyTerms =
        { original_text := text
          segments := (splitSegs text.data).enum.map fun p =>
            mkTextSegment sectionId sens keyTerms p.1 p.2
          styling_applied := true
          high_sensitivity_count :=
            ((((splitSegs text.data).enum.map fun p =>
              mkTextSegment sectionId sens keyTerms p.1 p.2).filter
                fun s => s.requires_attention)).length
          total_segments := ((splitSegs text.data).enum.map fun p =>
            mkTextSegment sectionId sens keyTerms p.1 p.2).length } := by
      rw [TextStylingSegmenter]
      simp only [hch, if_neg, if_false]
    have hjoin : String.join
        (((TextStylingSegmenter sectionId text sens keyTerms).segments).map
          fun s => s.text) = text := by
      rw [hsc]
      show String.join
        (((splitSegs text.data).enum.map fun p =>
            mkTextSegment sectionId sens keyTerms p.1 p.2).map fun s => s.text) = text
      rw [segment_texts_eq_chunks, join_map_mk, flatten_splitSegs]
    have horig : (TextStylingSegmenter sectionId text sens keyTerms).original_text
        = text := by rw [hsc]
    refine ⟨by rw [hjoin, horig], ?_⟩
    have hsegs : (TextStylingSegmenter sectionId text sens keyTerms).segments ≠ [] := by
      rw [hsc]
      show ((splitSegs text.data).enum.map fun p =>
        mkTextSegment sectionId sens keyTerms p.1 p.2) ≠ []
      simp [hch]
    have hrender : StyledTextRenderer (TextStylingSegmenter sectionId text sens keyTerms) =
        RenderedStyledText.segmented
          (TextStylingSegmenter sectionId text sens keyTerms).segments := by
      rw [StyledTextRenderer, if_neg]
      push_neg
      refine ⟨by simp [happ], ?_⟩
      simpa [List.length_eq_zero] using hsegs
    rw [hrender]
    show String.join
      (((TextStylingSegmenter sectionId text sens keyTerms).segments).map
        fun s => s.text) =
      (TextStylingSegmenter sectionId text sens keyTerms).original_text
    rw [hjoin, horig]

/-- C4 witness: the round trip evaluated on a concrete two-sentence text. -/
theorem textStylingSegmenter_round_trip_witness :
    String.join
        (((TextStylingSegmenter "s1" "We sell data. You can opt out." 8 []).segments).map
          fun s => s.text) =
      (TextStylingSegmenter "s1" "We sell data. You can opt out." 8 []).original_text ∧
    String.join
        (renderedTexts
          (StyledTextRenderer (TextStylingSegmenter "s1" "We sell data. You can opt out." 8 []))) =
      (TextStylingSegmenter "s1" "We sell data. You can opt out." 8 []).original_text :=
  textStylingSegmenter_round_trip "s1" "We sell data. You can opt out." 8 []
    (by decide)

/-! ### C8: scoring and ranking (spec-modelled) -/

/-- Modelled from the spec: the Scoring & Ranking backend engine is not
present under `src`; per §3, a `SectionAnalysis` carries the per-chunk
impact record and the `order_index` used as the ranking tie-break. -/
structure SectionAnalysis where
  order_index : Nat
  sensitivity_score : ℚ
  privacy_impact_score : ℚ
  user_control : ℚ
  key_concerns : List String
  required_data_practices : List String
deriving DecidableEq

/-- Modelled from the spec: §4.4 computes `importance_score` as a
deterministic weighted combination of `sensitivity_score`,
`privacy_impact_score`, the inverse of `user_control`, the count of
`key_concerns`, and the presence of required data practices, with fixed
constant weights. -/
def importance_score (s : SectionAnalysis) : ℚ :=
  3 * s.sensitivity_score + 3 * s.privacy_impact_score +
    (5 - s.user_control) + s.key_concerns.length +
    (if s.required_data_practices = [] then 0 else 2)

/-- The ranking order: higher `importance_score` first, ties broken by
ascending `order_index`. -/
def rankBefore (a b : SectionAnalysis) : Prop :=
  importance_score b < importance_score a ∨
    (importance_score a = importance_score b ∧ a.order_index ≤ b.order_index)

instance : DecidableRel rankBefore := fun a b => by
  unfold rankBefore; infer_instance

instance : IsTotal SectionAnalysis rankBefore := ⟨by
  intro a b
  rcases lt_trichotomy (importance_score a) (importance_score b) with h | h | h
  · exact Or.inr (Or.inl h)
  · rcases Nat.le_total a.order_index b.order_index with h2 | h2
    · exact Or.inl (Or.inr ⟨h, h2⟩)
    · exact Or.inr (Or.inr ⟨h.symm, h2⟩)
  · exact Or.inl (Or.inl h)⟩

instance : IsTrans SectionAnalysis rankBefore := ⟨by
  intro a b c hab hbc
  rcases hab with h1 | ⟨h1, h1'⟩ <;> rcases hbc with h2 | ⟨h2, h2'⟩
  · exact Or.inl (h2.trans h1)
  · exact Or.inl (h2 ▸ h1)
  · exact Or.inl (h1 ▸ h2)
  · exact Or.inr ⟨h1.trans h2, h1'.trans h2'⟩⟩

/-- `RankedSection`, from the spec's data model: the analysis plus its
computed `importance_score` and assigned 1-based `priority`. -/
structure RankedSection where
  analysis : SectionAnalysis
  importance_score : ℚ
  priority : Nat
deriving DecidableEq

/-- Assigns consecutive priorities starting at `n` down an already-sorted
list. -/
def assignPriorities : Nat → List SectionAnalysis → List RankedSection
  | _, [] => []
  | n, s :: rest =>
    { analysis := s, importance_score := importance_score s, priority := n } ::
      assignPriorities (n + 1) rest

/-- Modelled from the spec: §4.4 `Scoring & Ranking` sorts the analyses by
descending `importance_score` (ties by ascending `order_index`) and assigns
priorities `1..N` in that order. -/
def rankSections (sections : List SectionAnalysis) : List RankedSection :=
  assignPriorities 1 (sections.insertionSort rankBefore)

theorem map_priority_assignPriorities (n : Nat) (xs : List SectionAnalysis) :
    (assignPriorities n xs).map (fun rs => rs.priority) =
      List.range' n xs.length := by
  induction xs generalizing n with
  | nil => rfl
  | cons s xs ih => simp [assignPriorities, List.range'_succ, ih]

theorem map_analysis_assignPriorities (n : Nat) (xs : List SectionAnalysis) :
    (assignPriorities n xs).map (fun rs => rs.analysis) = xs := by
  induction xs generalizing n with
  | nil => rfl
  | cons s xs ih => simp [assignPriorities, ih]

/-- C8: for every list of `N` section analyses, the ranking engine outputs
the sections with priorities forming exactly the contiguous sequence
`1..N` (no gaps, no duplicates), in an order sorted by descending
`importance_score` with ties broken by ascending `order_index`, and the
ranked analyses are a permutation of the input list.  (`rankSections` is a
pure function, so repeated invocation on identical input is identical by
definition.) -/
theorem rankSections_contiguous_sorted_perm (sections : List SectionAnalysis) :
    (rankSections sections).map (fun rs => rs.priority) =
      List.range' 1 sections.length ∧
    List.Sorted (fun a b => rankBefore a.analysis b.analysis)
      (rankSections sections) ∧
    List.Perm ((rankSections sections).map fun rs => rs.analysis) sections := by
  refine ⟨?_, ?_, ?_⟩
  · rw [rankSections, map_priority_assignPriorities,
      List.length_insertionSort]
  · have hs : List.Sorted rankBefore (sections.insertionSort rankBefore) :=
      List.sorted_insertionSort rankBefore sections
    rw [← map_analysis_assignPriorities 1 (sections.insertionSort rankBefore)]
      at hs
    exact List.pairwise_map.mp hs
  · rw [rankSections, map_analysis_assignPriorities]
    exact List.perm_insertionSort rankBefore sections

/-! ### Quiz component state machine, from
`src/frontend/src/components/policy/InteractiveQuiz.tsx` -/

/-- The component state (`QuizState` in the source, minus the timing and
derived fields).  Answers are a total map with `""` for an absent entry,
matching the component's truthiness checks. -/
structure QuizState where
  currentQuestionIndex : Nat
  answers : String → String
  showResults : Bool

def initialQuizState : QuizState :=
  { currentQuestionIndex := 0, answers := fun _ => "", showResults := false }

/-- `quiz.questions[state.currentQuestionIndex]` (line 33); `undefined` is
modelled as `none`. -/
def currentQuestion (quiz : InteractiveQuiz) (s : QuizState) :
    Option QuizQuestion :=
  quiz.questions[s.currentQuestionIndex]?

/-- `isCurrentQuestionAnswered` (line 186): the current question exists and
its recorded answer is truthy. -/
def isCurrentQuestionAnswered (quiz : InteractiveQuiz) (s : QuizState) : Prop :=
  ∃ q, currentQuestion quiz s = some q ∧ s.answers q.id ≠ ""

/-- `isLastQuestion` (line 34): `currentQuestionIndex === questions.length - 1`
over JavaScript integers, encoded without natural-number truncation. -/
def isLastQuestion (quiz : InteractiveQuiz) (s : QuizState) : Prop :=
  s.currentQuestionIndex + 1 = quiz.questions.length

/-- `canFinish` (line 188): the Finish button is enabled only on the last
question once it is answered (and only while the question view, not the
results view, is shown). -/
def canFinish (quiz : InteractiveQuiz) (s : QuizState) : Prop :=
  s.showResults = false ∧ isCurrentQuestionAnswered quiz s ∧
    isLastQuestion quiz s

/-- The user-reachable transitions of `InteractiveQuizComponent`:
`handleAnswerSelect` (option clicks, true/false swipes, and the fill-blank
input, which may record any string including `""`), `handleNextQuestion`
(Next button enabled by `canProceed`, swipe-left guarded by an answer and
`!isLastQuestion`), `handlePrevQuestion` (enabled when not on the first
question), `handleFinishQuiz` (guarded by `canFinish`, shows the results
view), and `resetQuiz` from the results view.  Question-view actions exist
only when a current question is rendered (the component returns the error
card otherwise) and while results are not shown. -/
inductive QuizStep (quiz : InteractiveQuiz) : QuizState → QuizState → Prop
  | answerSelect (s : QuizState) (q : QuizQuestion) (answer : String)
      (hq : currentQuestion quiz s = some q) (hres : s.showResults = false) :
      QuizStep quiz s
        { s with answers := fun k => if k = q.id then answer else s.answers k }
  | nextQuestion (s : QuizState)
      (hans : isCurrentQuestionAnswered quiz s)
      (hlt : s.currentQuestionIndex + 1 < quiz.questions.length)
      (hres : s.showResults = false) :
      QuizStep quiz s { s with currentQuestionIndex := s.currentQuestionIndex + 1 }
  | prevQuestion (s : QuizState) (h0 : 0 < s.currentQuestionIndex)
      (hq : ∃ q, currentQuestion quiz s = some q)
      (hres : s.showResults = false) :
      QuizStep quiz s { s with currentQuestionIndex := s.currentQuestionIndex - 1 }
  | finishQuiz (s : QuizState) (h : canFinish quiz s) :
      QuizStep quiz s { s with showResults := true }
  | restart (s : QuizState) (hres : s.showResults = true) :
      QuizStep quiz s initialQuizState

/-- States reachable from the component's initial state. -/
inductive QuizReachable (quiz : InteractiveQuiz) : QuizState → Prop
  | init : QuizReachable quiz initialQuizState
  | step {s t : QuizState} (hr : QuizReachable quiz s)
      (hs : QuizStep quiz s t) : QuizReachable quiz t

/-- Inductive invariant: every question strictly before the current index
either has a truthy recorded answer, or shares its `id` with some question
at or after the current index (whose answer entry is the same). -/
def PrevAnswered (quiz : InteractiveQuiz) (s : QuizState) : Prop :=
  ∀ j, j < s.currentQuestionIndex →
    ∀ qj, quiz.questions[j]? = some qj →
      s.answers qj.id ≠ "" ∨
      ∃ m qm, s.currentQuestionIndex ≤ m ∧ quiz.questions[m]? = some qm ∧
        qm.id = qj.id


theorem prevAnswered_step (quiz : InteractiveQuiz) {s t : QuizState}
    (hstep : QuizStep quiz s t) (hinv : PrevAnswered quiz s) :
    PrevAnswered quiz t := by
  cases hstep with
  | answerSelect q answer hq hres =>
    intro j hj qj hqj
    by_cases hid : qj.id = q.id
    · exact Or.inr ⟨s.currentQuestionIndex, q, le_refl _, hq, hid.symm⟩
    · rcases hinv j hj qj hqj with hne | hw
      · left
        show ¬ (if qj.id = q.id then answer else s.answers qj.id) = ""
        rw [if_neg hid]
        exact hne
      · exact Or.inr hw
  | nextQuestion hans hlt hres =>
    intro j hj qj hqj
    obtain ⟨qc, hqc, hqcans⟩ := hans
    have hj' : j < s.currentQuestionIndex + 1 := hj
    rcases Nat.lt_or_ge j s.currentQuestionIndex with hjlt | hjge
    · rcases hinv j hjlt qj hqj with hne | ⟨m, qm, hm1, hm2, hm3⟩
      · exact Or.inl hne
      · rcases Nat.eq_or_lt_of_le hm1 with heq | hlt'
        · left
          rw [← heq] at hm2
          have hqm : qm = qc := Option.some.inj (hm2.symm.trans hqc)
          show s.answers qj.id ≠ ""
          rw [← hm3, hqm]
          exact hqcans
        · exact Or.inr ⟨m, qm, hlt', hm2, hm3⟩
    · have hj2 : j = s.currentQuestionIndex := by omega
      left
      rw [hj2] at hqj
      have hqj2 : qj = qc := Option.some.inj (hqj.symm.trans hqc)
      show s.answers qj.id ≠ ""
      rw [hqj2]
      exact hqcans
  | prevQuestion h0 hq hres =>
    intro j hj qj hqj
    have hj' : j < s.currentQuestionIndex - 1 := hj
    have hj2 : j < s.currentQuestionIndex := by omega
    rcases hinv j hj2 qj hqj with hne | ⟨m, qm, hm1, hm2, hm3⟩
    · exact Or.inl hne
    · exact Or.inr ⟨m, qm, show s.currentQuestionIndex - 1 ≤ m by omega, hm2, hm3⟩
  | finishQuiz h =>
    intro j hj qj hqj
    exact hinv j hj qj hqj
  | restart hres =>
    intro j hj qj hqj
    exact absurd hj (Nat.not_lt_zero j)

theorem reachable_prevAnswered (quiz : InteractiveQuiz) (s : QuizState)
    (h : QuizReachable quiz s) : PrevAnswered quiz s := by
  induction h with
  | init => intro j hj qj hqj; exact absurd hj (Nat.not_lt_zero j)
  | step hr hs ih => exact prevAnswered_step quiz hs ih

/-- C10: in every reachable component state in which the Finish action is
enabled, the `QuizResult` produced by `handleFinishQuiz` carries a non-empty
answer for every question of the quiz (navigation only advances past
answered questions and Finish is enabled only on the answered last question,
so no question is left unanswered). -/
theorem finish_result_all_questions_answered (quiz : InteractiveQuiz)
    (s : QuizState) (t : Nat)
    (hreach : QuizReachable quiz s) (hfin : canFinish quiz s) :
    ∀ q ∈ quiz.questions,
      (handleFinishQuiz quiz s.answers t).answers q.id ≠ "" := by
  have hinv := reachable_prevAnswered quiz s hreach
  obtain ⟨hres, ⟨qc, hqc, hqcans⟩, hlast⟩ := hfin
  have hlast' : s.currentQuestionIndex + 1 = quiz.questions.length := hlast
  have hcur : quiz.questions[s.currentQuestionIndex]? = some qc := hqc
  intro q hq
  have hra : (handleFinishQuiz quiz s.answers t).answers = s.answers := rfl
  rw [hra]
  obtain ⟨j, hjlen, hjget⟩ := List.mem_iff_getElem.mp hq
  have hjq : quiz.questions[j]? = some q :=
    List.getElem?_eq_some.mpr ⟨hjlen, hjget⟩
  rcases Nat.lt_or_ge j s.currentQuestionIndex with hjlt | hjge
  · rcases hinv j hjlt q hjq with hne | ⟨m, qm, hm1, hm2, hm3⟩
    · exact hne
    · have hmlen : m < quiz.questions.length :=
        (List.getElem?_eq_some.mp hm2).1
      have hmeq : m = s.currentQuestionIndex := by omega
      rw [hmeq] at hm2
      have hqm : qm = qc := Option.some.inj (hm2.symm.trans hcur)
      rw [← hm3, hqm]
      exact hqcans
  · have hjeq : j = s.currentQuestionIndex := by omega
    rw [hjeq] at hjq
    have hqq : q = qc := Option.some.inj (hjq.symm.trans hcur)
    rw [hqq]
    exact hqcans

/-! ### C9: empty question list -/

/-- What the quiz component renders: the results view (`state.showResults`),
the dedicated error card ("No questions available for this quiz.") when the
current question is `undefined`, or the question view. -/
inductive QuizRender
  | resultsView
  | errorState
  | questionView (q : QuizQuestion)
deriving DecidableEq

/-- The component's top-level render branches (lines 165-184): results view
first, then the error card when `!currentQuestion`, then the question view. -/
def renderQuiz (quiz : InteractiveQuiz) (s : QuizState) : QuizRender :=
  if s.showResults then QuizRender.resultsView
  else
    match currentQuestion quiz s with
    | none => QuizRender.errorState
    | some q => QuizRender.questionView q

theorem empty_quiz_no_finish (quiz : InteractiveQuiz)
    (hq : quiz.questions = []) (s : QuizState) : ¬ canFinish quiz s := by
  rintro ⟨_, ⟨qc, hqc, _⟩, _⟩
  rw [currentQuestion, hq] at hqc
  simp at hqc

theorem empty_quiz_no_showResults (quiz : InteractiveQuiz)
    (hq : quiz.questions = []) (s : QuizState)
    (hreach : QuizReachable quiz s) : s.showResults = false := by
  induction hreach with
  | init => rfl
  | step hr hs ih =>
    cases hs with
    | answerSelect q answer hq' hres => exact hres
    | nextQuestion hans hlt hres => exact hres
    | prevQuestion h0 hq' hres => exact hres
    | finishQuiz h => exact absurd h (empty_quiz_no_finish quiz hq _)
    | restart hres => rfl

/-- C9: a quiz whose question list is empty renders the dedicated
"No questions available" error card in every reachable state (never an
out-of-bounds question view), the Finish action is never enabled, and the
results view is never shown — so `onComplete` is never invoked and no
`QuizResult` is produced. -/
theorem empty_quiz_renders_error_never_completes (quiz : InteractiveQuiz)
    (hq : quiz.questions = []) (s : QuizState)
    (hreach : QuizReachable quiz s) :
    renderQuiz quiz s = QuizRender.errorState ∧
    ¬ canFinish quiz s ∧
    s.showResults = false := by
  have hsr := empty_quiz_no_showResults quiz hq s hreach
  refine ⟨?_, empty_quiz_no_finish quiz hq s, hsr⟩
  rw [renderQuiz, if_neg (by rw [hsr]; exact Bool.false_ne_true)]
  rw [currentQuestion, hq]
  rfl

def c9Quiz : InteractiveQuiz :=
  { id := "quiz9"
    title := "Empty quiz"
    questions := []
    passing_score := 70
    estimated_time_minutes := 1 }

/-- C9 witness: the empty-quiz behaviour evaluated at the initial state. -/
theorem empty_quiz_renders_error_never_completes_witness :
    renderQuiz c9Quiz initialQuizState = QuizRender.errorState ∧
    ¬ canFinish c9Quiz initialQuizState ∧
    initialQuizState.showResults = false :=
  empty_quiz_renders_error_never_completes c9Quiz rfl initialQuizState
    QuizReachable.init

/-! ### C10 witness: a concrete finishing run -/

def w10Question : QuizQuestion :=
  { id := "q10"
    question_text := "Is your email collected?"
    question_type := QuestionType.true_false
    options := [{ id := "t", text := "True", is_correct := true },
                { id := "f", text := "False", is_correct := false }]
    points := 1 }

def w10Quiz : InteractiveQuiz :=
  { id := "quiz10"
    title := "Collection"
    questions := [w10Question]
    passing_score := 70
    estimated_time_minutes := 1 }

/-- The state after the user answers the single question. -/
def w10State : QuizState :=
  { initialQuizState with
    answers := fun k => if k = "q10" then "True" else initialQuizState.answers k }

theorem w10State_reachable : QuizReachable w10Quiz w10State :=
  QuizReachable.step QuizReachable.init
    (QuizStep.answerSelect initialQuizState w10Question "True" rfl rfl)

/-- C10 witness: the all-questions-answered guarantee evaluated on the
concrete finishing run. -/
theorem finish_result_all_questions_answered_witness :
    (handleFinishQuiz w10Quiz w10State.answers 0).answers w10Question.id ≠ "" :=
  finish_result_all_questions_answered w10Quiz w10State 0 w10State_reachable
    ⟨rfl, ⟨w10Question, rfl, by decide⟩, rfl⟩ w10Question (by decide)
